import Mathlib

/-!
Verification of the psycopg2 instrumentation layer
(`opentelemetry/instrumentation/psycopg2/__init__.py`).

The development shallowly embeds the statement-extraction logic
(`CursorTracer.get_operation_name`, `CursorTracer.get_statement`), the
per-connection instrumentation (`Psycopg2Instrumentor.instrument_connection`,
`Psycopg2Instrumentor.uninstrument_connection`), and the connect wrapping
(`DatabaseApiIntegration.wrapped_connection` together with
`_new_cursor_factory`).

Python values that can flow through the execute-call argument tuple are
modelled by the inductive type `Val` (text statements, `Composed` statement
objects carrying their rendered text, integers, and parameter tuples).
Exceptions raised by the Python code are modelled by `Except Unit`.
-/

set_option autoImplicit false

namespace Psycopg2

/-- Values that the instrumentation inspects: a text statement, a
`psycopg2.sql.Composed` object (carrying the text that `as_string(cursor)`
renders it to), an integer, or a tuple of parameter values. -/
inductive Val where
  | str (s : String)
  | composed (s : String)
  | int (n : Int)
  | tup (elems : List Val)

/-- Composed-statement resolution: mirrors
`if isinstance(statement, Composed): statement = statement.as_string(cursor)`.
The cursor is only the rendering context; the `composed` constructor already
carries the rendered text, so it is not a parameter here. -/
def resolveStmt (v : Val) : Val :=
  match v with
  | Val.composed s => Val.str s
  | v => v

/-- Characters on which CPython `str.split()` (no separator) splits: the
Unicode whitespace set of `str.isspace()` — U+0009 to U+000D, U+001C to
U+001F, the space, NEL (U+0085), NBSP (U+00A0), OGHAM SPACE MARK (U+1680),
the U+2000 to U+200A spaces, LINE SEPARATOR (U+2028), PARAGRAPH SEPARATOR
(U+2029), NARROW NBSP (U+202F), MEDIUM MATHEMATICAL SPACE (U+205F) and
IDEOGRAPHIC SPACE (U+3000). -/
def pyIsSpace (c : Char) : Bool :=
  let n := c.toNat
  (0x09 ≤ n && n ≤ 0x0d) || (0x1c ≤ n && n ≤ 0x1f) || n = 0x20
    || n = 0x85 || n = 0xa0 || n = 0x1680 || (0x2000 ≤ n && n ≤ 0x200a)
    || n = 0x2028 || n = 0x2029 || n = 0x202f || n = 0x205f || n = 0x3000

/-- Tokenizer behind `pyTokens`: walks the character list, `cur` holding the
(reversed) characters of the token being read; whitespace closes the current
token, anything else extends it. -/
def pyTokensAux : List Char → List Char → List String
  | [], [] => []
  | [], cur => [String.mk cur.reverse]
  | c :: rest, cur =>
    if pyIsSpace c then
      match cur with
      | [] => pyTokensAux rest []
      | _ => String.mk cur.reverse :: pyTokensAux rest []
    else pyTokensAux rest (c :: cur)

/-- The token list produced by CPython `statement.split()`: maximal runs of
non-whitespace characters, empty pieces discarded. -/
def pyTokens (s : String) : List String :=
  pyTokensAux s.data []

/-- CPython `len(v)`: defined for text and tuples, a `TypeError` (modelled as
`none`) for objects without a length. -/
def pyLen (v : Val) : Option Nat :=
  match v with
  | Val.str s => some s.length
  | Val.tup l => some l.length
  | _ => none

/-- CPython `str(v)` for the scalar parameter values the theorems use
(text renders to itself, integers to their decimal form). The rendering of
composed and tuple values is abstracted to a fixed tag; no theorem below
depends on those two cases. -/
def pyStr (v : Val) : List Char :=
  match v with
  | Val.str s => s.data
  | Val.int n => (toString n).data
  | Val.composed _ => "<Composed>".data
  | Val.tup _ => "<tuple>".data

/-- CPython percent-formatting treats a non-tuple right operand as a single
parameter value; a tuple supplies one value per conversion. -/
def paramTuple (v : Val) : List Val :=
  match v with
  | Val.tup l => l
  | v => [v]

/-- CPython percent-formatting of a format string against a parameter list,
restricted to the placeholder convention this instrumentation handles:
the `%s` conversion and the `%%` escape. Errors (modelled as `Except.error`)
are: a parameter left over at the end (`TypeError: not all arguments
converted`), a trailing lone `%` (`ValueError: incomplete format`), a `%s`
with no parameter left (`TypeError: not enough arguments`), and any other
character after `%` (`ValueError: unsupported format character`; characters
that CPython would accept as further conversions, flags or widths are
outside the model and never appear in the statements considered). -/
def pyFormat : List Char → List Val → Except Unit (List Char)
  | [], [] => Except.ok []
  | [], _ :: _ => Except.error ()
  | ['%'], _ => Except.error ()
  | '%' :: '%' :: rest, ps => (pyFormat rest ps).map (fun r => '%' :: r)
  | '%' :: 's' :: _, [] => Except.error ()
  | '%' :: 's' :: rest, p :: ps => (pyFormat rest ps).map (fun r => pyStr p ++ r)
  | '%' :: _ :: _, _ => Except.error ()
  | c :: rest, ps => (pyFormat rest ps).map (fun r => c :: r)

/-- CPython `statement % params`: percent-formatting when the left operand is
text, a `TypeError` otherwise (the statements reaching this point in the
source are text or already-rendered composed statements). -/
def pyMod (statement params : Val) : Except Unit Val :=
  match statement with
  | Val.str fmt => (pyFormat fmt.data (paramTuple params)).map (fun cs => Val.str (String.mk cs))
  | _ => Except.error ()

/-- Embedding of `CursorTracer.get_operation_name(cursor, args)`:
empty args give `""`; a `Composed` first argument is rendered to text; a text
statement yields `statement.split()[0]`, which raises `IndexError` (modelled
as `Except.error ()`) when the token list is empty; a non-text first argument
yields `""`. -/
def get_operation_name (args : List Val) : Except Unit String :=
  match args with
  | [] => Except.ok ""
  | statement :: _ =>
    match resolveStmt statement with
    | Val.str s =>
      match pyTokens s with
      | [] => Except.error ()
      | tok :: _ => Except.ok tok
    | _ => Except.ok ""

/-- Embedding of `CursorTracer.get_statement(cursor, args)`:
empty args give `""`; the first argument is rendered if composed; when a
second argument is present, `len(args[1])` is taken (a `TypeError` for
lengthless values) and, when positive, `statement % args[1]` is evaluated
with no exception handler, so a formatting failure propagates. -/
def get_statement (args : List Val) : Except Unit Val :=
  match args with
  | [] => Except.ok (Val.str "")
  | statement :: rest =>
    let statement := resolveStmt statement
    match rest with
    | [] => Except.ok statement
    | params :: _ =>
      match pyLen params with
      | none => Except.error ()
      | some l =>
        if 0 < l then pyMod statement params
        else Except.ok statement

/-- Cursor-factory types: the library default `psycopg2.extensions.cursor`,
a caller-supplied custom cursor class (identified by a tag), or a
`TracedCursorFactory` class subclassing a base factory. -/
inductive Factory where
  | pgCursor
  | custom (tag : Nat)
  | traced (base : Factory)
  deriving DecidableEq, Repr

/-- Whether a factory is a `TracedCursorFactory` class produced by
`_new_cursor_factory`. -/
def Factory.isTraced : Factory → Bool
  | Factory.traced _ => true
  | _ => false

/-- The base class a `TracedCursorFactory` delegates to via `super()` in its
`execute`, `executemany` and `callproc` overrides. -/
def Factory.superClass : Factory → Option Factory
  | Factory.traced b => some b
  | _ => none

/-- Embedding of `_new_cursor_factory(db_api, base_factory, tracer_provider)`:
the returned class subclasses `base_factory or pg_cursor`. The `db_api` /
`tracer_provider` arguments only configure span creation and do not affect
the class structure, so they are not modelled. -/
def new_cursor_factory (base_factory : Option Factory) : Factory :=
  Factory.traced (base_factory.getD Factory.pgCursor)

/-- A psycopg2 connection object as the instrumentation sees it:
its `cursor_factory` attribute (which may be `None`) and the hidden
`_otel_orig_cursor_factory` attribute (`otel_marker`), which is absent
(`none`) until `instrument_connection` first sets it and then holds the saved
`cursor_factory` value. -/
structure Conn where
  cursor_factory : Option Factory
  otel_marker : Option (Option Factory)
  deriving DecidableEq, Repr

/-- Embedding of `Psycopg2Instrumentor.instrument_connection`: saves the
current `cursor_factory` under the hidden marker attribute (overwriting any
previous marker), then replaces `cursor_factory` with a fresh traced factory
built with no base (so its base is the library default cursor), and returns
the connection. -/
def instrument_connection (c : Conn) : Conn :=
  Conn.mk (some (new_cursor_factory none)) (some c.cursor_factory)

/-- Embedding of `Psycopg2Instrumentor.uninstrument_connection`: sets
`cursor_factory` to `getattr(connection, _OTEL_CURSOR_FACTORY_KEY, None)` —
the marker's saved value when the marker is present, `None` otherwise — and
returns the connection. The marker attribute itself is never removed. -/
def uninstrument_connection (c : Conn) : Conn :=
  Conn.mk (c.otel_marker.getD none) c.otel_marker

/-- Connection states reachable from an initial connection `c₀` by any
sequence of `instrument_connection` / `uninstrument_connection` calls. -/
inductive Reach (c₀ : Conn) : Conn → Prop where
  | init : Reach c₀ c₀
  | instr {c : Conn} : Reach c₀ c → Reach c₀ (instrument_connection c)
  | uninstr {c : Conn} : Reach c₀ c → Reach c₀ (uninstrument_connection c)

/-- The keyword arguments of a `connect` call as far as the wrapper inspects
them: the optional `cursor_factory` entry and the remaining keyword
arguments (name/value tags), which the wrapper passes through untouched. -/
structure ConnectKwargs where
  cursor_factory : Option Factory
  others : List (String × Nat)
  deriving DecidableEq, Repr

/-- Embedding of `DatabaseApiIntegration.wrapped_connection`: pops
`cursor_factory` from the kwargs (absent and `None` are both falsy, giving
no base), builds a traced factory over the popped base when one was
supplied, stores it back under `cursor_factory`, and calls the real connect
with the resulting kwargs. This function returns the kwargs the real
connect receives. -/
def wrapped_connection_kwargs (kwargs : ConnectKwargs) : ConnectKwargs :=
  let base_cursor_factory := kwargs.cursor_factory
  ConnectKwargs.mk (some (new_cursor_factory base_cursor_factory)) kwargs.others

/-- A `TracedCursorFactory` class is never equal to its own base class. -/
theorem Factory.traced_ne_self : ∀ b : Factory, Factory.traced b ≠ b := by
  intro b
  induction b with
  | pgCursor => exact fun h => Factory.noConfusion h
  | custom t => exact fun h => Factory.noConfusion h
  | traced b ih =>
      intro h
      injection h with h2
      exact ih h2

/-- C1 (counterexample): statement extraction is not total — on the argument
tuple whose first element is the empty text statement, `get_operation_name`
evaluates `"".split()[0]` and raises `IndexError` instead of returning. -/
theorem C1_counterexample :
    get_operation_name [Val.str ""] = Except.error () := rfl

/-- C1 (amended): statement extraction is total except when the first
argument resolves to text with no non-whitespace characters (where
`statement.split()[0]` raises `IndexError`): `get_operation_name` with zero
arguments and `get_statement` with zero arguments return empty results;
`get_operation_name` returns without raising on every argument tuple whose
first element does not resolve to token-free text; and `get_statement` for
an `executemany` with an empty parameter sequence returns the unsubstituted
statement without raising. -/
theorem C1_extraction_total_amended :
    get_operation_name [] = Except.ok ""
    ∧ get_statement [] = Except.ok (Val.str "")
    ∧ (∀ v rest, (∀ s, resolveStmt v = Val.str s → pyTokens s ≠ []) →
        get_operation_name (v :: rest) ≠ Except.error ())
    ∧ (∀ s rest, get_statement (Val.str s :: Val.tup [] :: rest) = Except.ok (Val.str s)) := by
  refine ⟨rfl, rfl, ?_, ?_⟩
  · intro v rest h
    cases hv : resolveStmt v with
    | str s =>
        cases ht : pyTokens s with
        | nil => exact absurd ht (h s hv)
        | cons tok toks => simp [get_operation_name, hv, ht]
    | composed s => simp [get_operation_name, hv]
    | int n => simp [get_operation_name, hv]
    | tup l => simp [get_operation_name, hv]
  · intro s rest
    simp [get_statement, resolveStmt, pyLen]

/-- Witness for C1: the amended theorem applied at the tuple
`("SELECT 1",)`. -/
theorem C1_extraction_total_amended_witness :
    get_operation_name [Val.str "SELECT 1"] ≠ Except.error () :=
  C1_extraction_total_amended.2.2.1 (Val.str "SELECT 1") []
    (by intro s hs; simp [resolveStmt] at hs; subst hs; decide)

/-- C2 (code bug): `get_statement` evaluates `statement % args[1]` with no
exception handler, so on the statement
`"SELECT * FROM t WHERE name LIKE %z"` with non-empty parameters `(1,)` the
formatting failure (unsupported format character after a literal `%`)
propagates out of `get_statement` instead of being caught locally; without
parameters the same statement is returned intact, showing the failure
originates in the unguarded substitution. -/
theorem C2_substitution_failure_propagates :
    get_statement [Val.str "SELECT * FROM t WHERE name LIKE %z", Val.tup [Val.int 1]]
      = Except.error ()
    ∧ get_statement [Val.str "SELECT * FROM t WHERE name LIKE %z"]
      = Except.ok (Val.str "SELECT * FROM t WHERE name LIKE %z")
    ∧ pyMod (Val.str "SELECT * FROM t WHERE name LIKE %z") (Val.tup [Val.int 1])
      = Except.error () :=
  ⟨rfl, rfl, rfl⟩

/-- C3: for every connection, whatever its initial `cursor_factory` value,
`instrument_connection` followed immediately by `uninstrument_connection`
restores `cursor_factory` to the value it had before the first call. -/
theorem C3_roundtrip_restores_cursor_factory (c : Conn) :
    (uninstrument_connection (instrument_connection c)).cursor_factory
      = c.cursor_factory := rfl

/-- C4: calling `instrument_connection` twice without an intervening
uninstrument overwrites the saved-original marker with the first traced
cursor factory, so a single subsequent `uninstrument_connection` sets
`cursor_factory` to a traced factory and not to the true original
(whenever the original was not itself a traced factory). -/
theorem C4_double_instrument_loses_original (c : Conn)
    (h : ∀ f, c.cursor_factory = some f → f.isTraced = false) :
    (instrument_connection (instrument_connection c)).otel_marker
      = some (some (Factory.traced Factory.pgCursor))
    ∧ (uninstrument_connection
        (instrument_connection (instrument_connection c))).cursor_factory
      = some (Factory.traced Factory.pgCursor)
    ∧ (Factory.traced Factory.pgCursor).isTraced = true
    ∧ (uninstrument_connection
        (instrument_connection (instrument_connection c))).cursor_factory
      ≠ c.cursor_factory := by
  refine ⟨rfl, rfl, rfl, ?_⟩
  intro hc
  have h2 := h (Factory.traced Factory.pgCursor) hc.symm
  simp [Factory.isTraced] at h2

/-- Witness for C4: a connection whose original factory is the custom class
tagged 3. -/
theorem C4_double_instrument_loses_original_witness :
    (instrument_connection (instrument_connection
        (Conn.mk (some (Factory.custom 3)) none))).otel_marker
      = some (some (Factory.traced Factory.pgCursor))
    ∧ (uninstrument_connection (instrument_connection (instrument_connection
        (Conn.mk (some (Factory.custom 3)) none)))).cursor_factory
      = some (Factory.traced Factory.pgCursor)
    ∧ (Factory.traced Factory.pgCursor).isTraced = true
    ∧ (uninstrument_connection (instrument_connection (instrument_connection
        (Conn.mk (some (Factory.custom 3)) none)))).cursor_factory
      ≠ (Conn.mk (some (Factory.custom 3)) none).cursor_factory :=
  C4_double_instrument_loses_original (Conn.mk (some (Factory.custom 3)) none)
    (by intro f hf; cases hf; rfl)

/-- C5: the wrapped connect removes a caller-supplied `cursor_factory` from
the arguments passed through (the value forwarded is no longer the supplied
class), makes the supplied class the base that the traced factory
subclasses (the target of its `super()` delegation), leaves the other
keyword arguments untouched, and uses the library default cursor as base
when no `cursor_factory` was supplied. -/
theorem C5_supplied_factory_becomes_base (kwargs : ConnectKwargs) :
    (wrapped_connection_kwargs kwargs).others = kwargs.others
    ∧ (∀ base, kwargs.cursor_factory = some base →
        (wrapped_connection_kwargs kwargs).cursor_factory
          = some (Factory.traced base)
        ∧ Factory.superClass (Factory.traced base) = some base
        ∧ (wrapped_connection_kwargs kwargs).cursor_factory ≠ kwargs.cursor_factory)
    ∧ (kwargs.cursor_factory = none →
        (wrapped_connection_kwargs kwargs).cursor_factory
          = some (Factory.traced Factory.pgCursor)) := by
  refine ⟨rfl, ?_, ?_⟩
  · intro base hb
    refine ⟨?_, rfl, ?_⟩
    · simp [wrapped_connection_kwargs, new_cursor_factory, hb]
    · simp [wrapped_connection_kwargs, new_cursor_factory, hb]
      exact Factory.traced_ne_self base
  · intro hb
    simp [wrapped_connection_kwargs, new_cursor_factory, hb]

/-- Witness for C5: a connect call supplying the custom cursor class tagged
7 together with one further keyword argument. -/
theorem C5_supplied_factory_becomes_base_witness :
    (wrapped_connection_kwargs
        (ConnectKwargs.mk (some (Factory.custom 7)) [("dbname", 1)])).cursor_factory
      = some (Factory.traced (Factory.custom 7))
    ∧ Factory.superClass (Factory.traced (Factory.custom 7))
      = some (Factory.custom 7)
    ∧ (wrapped_connection_kwargs
        (ConnectKwargs.mk (some (Factory.custom 7)) [("dbname", 1)])).cursor_factory
      ≠ (ConnectKwargs.mk (some (Factory.custom 7)) [("dbname", 1)]).cursor_factory :=
  (C5_supplied_factory_becomes_base
      (ConnectKwargs.mk (some (Factory.custom 7)) [("dbname", 1)])).2.1
    (Factory.custom 7) rfl

/-- C6: when the first argument is (or resolves to) a text statement with at
least one token, `get_operation_name` returns the first whitespace-delimited
token with its case preserved; in particular `"SELECT * FROM t"` gives
`"SELECT"`. -/
theorem C6_operation_name_first_token :
    (∀ s tok toks rest, pyTokens s = tok :: toks →
        get_operation_name (Val.str s :: rest) = Except.ok tok
        ∧ get_operation_name (Val.composed s :: rest) = Except.ok tok)
    ∧ get_operation_name [Val.str "SELECT * FROM t"] = Except.ok "SELECT" := by
  refine ⟨?_, rfl⟩
  intro s tok toks rest h
  constructor
  · simp [get_operation_name, resolveStmt, h]
  · simp [get_operation_name, resolveStmt, h]

/-- Witness for C6: a composed statement rendering to `"Insert into t"`
yields the case-preserved token `"Insert"`. -/
theorem C6_operation_name_first_token_witness :
    get_operation_name [Val.composed "Insert into t"] = Except.ok "Insert" :=
  (C6_operation_name_first_token.1 "Insert into t" "Insert" ["into", "t"] []
    (by decide)).2

/-- C7: when the first argument resolves to text and the second is a
non-empty parameter sequence, `get_statement` returns the text with the
parameters substituted by percent-style interpolation whenever the
substitution succeeds; in particular a composed statement rendering to
`"INSERT INTO test (testField) VALUES (%s)"` with parameters `(123,)` gives
`"INSERT INTO test (testField) VALUES (123)"`. -/
theorem C7_statement_param_substitution :
    (∀ v s params rest l out,
        resolveStmt v = Val.str s → pyLen params = some l → 0 < l →
        pyMod (Val.str s) params = Except.ok out →
        get_statement (v :: params :: rest) = Except.ok out)
    ∧ get_statement
        [Val.composed "INSERT INTO test (testField) VALUES (%s)", Val.tup [Val.int 123]]
      = Except.ok (Val.str "INSERT INTO test (testField) VALUES (123)") := by
  refine ⟨?_, rfl⟩
  intro v s params rest l out hv hlen hl hmod
  simp [get_statement, hv, hlen, hl, hmod]

/-- Witness for C7: the substitution theorem applied at the statement
`"VALUES (%s)"` with the parameter tuple `(5,)`. -/
theorem C7_statement_param_substitution_witness :
    get_statement [Val.str "VALUES (%s)", Val.tup [Val.int 5]]
      = Except.ok (Val.str "VALUES (5)") :=
  C7_statement_param_substitution.1 (Val.str "VALUES (%s)") "VALUES (%s)"
    (Val.tup [Val.int 5]) [] 1 (Val.str "VALUES (5)") rfl rfl (by decide) rfl

/-- C8: `get_operation_name` returns the empty string both on an empty
argument list and whenever the first argument, after composed-statement
resolution, is not text. -/
theorem C8_operation_name_empty_cases :
    get_operation_name [] = Except.ok ""
    ∧ (∀ v rest, (∀ s, resolveStmt v ≠ Val.str s) →
        get_operation_name (v :: rest) = Except.ok "") := by
  refine ⟨rfl, ?_⟩
  intro v rest h
  cases hv : resolveStmt v with
  | str s => exact absurd hv (h s)
  | composed s => simp [get_operation_name, hv]
  | int n => simp [get_operation_name, hv]
  | tup l => simp [get_operation_name, hv]

/-- Witness for C8: an integer first argument yields the empty operation
name. -/
theorem C8_operation_name_empty_cases_witness :
    get_operation_name [Val.int 5] = Except.ok "" :=
  C8_operation_name_empty_cases.2 (Val.int 5) []
    (by intro s h; simp [resolveStmt] at h)

/-- C9 (counterexample): after `instrument_connection` then
`uninstrument_connection` on a connection whose factory was the custom class
tagged 0, the reachable state still carries the hidden marker (it is never
removed) while its `cursor_factory` is the restored original, which is not a
traced factory — so presence of the marker does not imply the current
factory is the traced one. -/
theorem C9_counterexample :
    Reach (Conn.mk (some (Factory.custom 0)) none)
      (uninstrument_connection (instrument_connection
        (Conn.mk (some (Factory.custom 0)) none)))
    ∧ (uninstrument_connection (instrument_connection
        (Conn.mk (some (Factory.custom 0)) none))).otel_marker
      = some (some (Factory.custom 0))
    ∧ (uninstrument_connection (instrument_connection
        (Conn.mk (some (Factory.custom 0)) none))).cursor_factory
      = some (Factory.custom 0)
    ∧ (Factory.custom 0).isTraced = false :=
  ⟨Reach.uninstr (Reach.instr Reach.init), rfl, rfl, rfl⟩

/-- C9 (amended): at every state reachable by `instrument_connection` /
`uninstrument_connection` calls from a connection without the hidden marker,
absence of the marker implies the `cursor_factory` is untouched or was
cleared to `None` by an unmatched uninstrument, and presence of the marker
implies the current `cursor_factory` is either a traced factory or exactly
the value saved in the marker (restored by `uninstrument_connection`). -/
theorem C9_marker_invariant_amended (c₀ c : Conn) (h0 : c₀.otel_marker = none)
    (hr : Reach c₀ c) :
    (c.otel_marker = none →
        c.cursor_factory = c₀.cursor_factory ∨ c.cursor_factory = none)
    ∧ (∀ saved, c.otel_marker = some saved →
        (∃ f, c.cursor_factory = some f ∧ f.isTraced = true)
        ∨ c.cursor_factory = saved) := by
  induction hr with
  | init =>
      refine ⟨fun _ => Or.inl rfl, ?_⟩
      intro saved hs
      rw [h0] at hs
      exact Option.noConfusion hs
  | @instr c hr ih =>
      refine ⟨?_, ?_⟩
      · intro hm
        exact Option.noConfusion hm
      · intro saved hs
        exact Or.inl ⟨Factory.traced Factory.pgCursor, rfl, rfl⟩
  | @uninstr c hr ih =>
      refine ⟨?_, ?_⟩
      · intro hm
        have hm2 : c.otel_marker = none := hm
        right
        show (uninstrument_connection c).cursor_factory = none
        simp [uninstrument_connection, hm2]
      · intro saved hs
        have hs2 : c.otel_marker = some saved := hs
        right
        show (uninstrument_connection c).cursor_factory = saved
        simp [uninstrument_connection, hs2]

/-- Witness for C9: the amended invariant applied at the reachable state
obtained by instrumenting a connection whose factory was the custom class
tagged 0, where the current factory is the traced one. -/
theorem C9_marker_invariant_amended_witness :
    (∃ f, (instrument_connection
        (Conn.mk (some (Factory.custom 0)) none)).cursor_factory = some f
      ∧ f.isTraced = true)
    ∨ (instrument_connection
        (Conn.mk (some (Factory.custom 0)) none)).cursor_factory
      = some (Factory.custom 0) :=
  (C9_marker_invariant_amended (Conn.mk (some (Factory.custom 0)) none)
      (instrument_connection (Conn.mk (some (Factory.custom 0)) none)) rfl
      (Reach.instr Reach.init)).2 (some (Factory.custom 0)) rfl

/-- C10: `uninstrument_connection` on a connection never instrumented (no
hidden marker) clears its `cursor_factory` to `None` instead of leaving it
unchanged, and returns the same connection (only the `cursor_factory` field
differs, the marker stays absent). -/
theorem C10_uninstrument_never_instrumented (c : Conn)
    (h : c.otel_marker = none) :
    uninstrument_connection c = Conn.mk none c.otel_marker := by
  show Conn.mk (c.otel_marker.getD none) c.otel_marker = Conn.mk none c.otel_marker
  rw [h]
  rfl

/-- Witness for C10: a never-instrumented connection with a configured
custom factory loses that factory. -/
theorem C10_uninstrument_never_instrumented_witness :
    uninstrument_connection (Conn.mk (some (Factory.custom 2)) none)
      = Conn.mk none (Conn.mk (some (Factory.custom 2)) none).otel_marker :=
  C10_uninstrument_never_instrumented (Conn.mk (some (Factory.custom 2)) none) rfl

end Psycopg2
